import Mathlib

/-!
# Verification of the pyngsild attribute-tree library

A shallow embedding of the pyngsild repository (modules `pyngsild/proprel.py`,
`pyngsild/entity.py`, `pyngsild/ctxbroker.py`, `pyngsild/utils/auth_utils.py`)
together with theorems settling the specification claims about it.

Python dictionaries are modelled as association lists with insertion-order
semantics: assigning to an existing key replaces its value in place, assigning
to a fresh key appends it at the end, exactly as CPython dicts behave.
-/

set_option autoImplicit false

namespace Pyngsild

/-- A dynamically typed Python value (the JSON-serialisable fragment that the
library stores in attribute payloads and renders with `to_ngsild`). -/
inductive PyVal : Type where
  | pynone : PyVal
  | pybool (b : Bool) : PyVal
  | pyint (n : Int) : PyVal
  | str (s : String) : PyVal
  | pylist (xs : List PyVal) : PyVal
  | dict (entries : List (String × PyVal)) : PyVal

/-- First-match lookup in a Python dict modelled as an association list
(keys are unique by construction, so first match is the match). -/
def dictLookup : List (String × PyVal) → String → Option PyVal
  | [], _ => Option.none
  | (k', v) :: rest, k => if k' = k then some v else dictLookup rest k

/-- Model of `d[k] = v` on a Python dict: replace the value in place when the key is
already present, append the pair at the end otherwise. -/
def dictSet : List (String × PyVal) → String → PyVal → List (String × PyVal)
  | [], k, v => [(k, v)]
  | (k', v') :: rest, k, v =>
      if k' = k then (k, v) :: rest else (k', v') :: dictSet rest k v

/-- Model of `d.update(es)` on a Python dict: assign every pair of `es` in order. -/
def dictUpdate (d : List (String × PyVal)) (es : List (String × PyVal)) :
    List (String × PyVal) :=
  es.foldl (fun acc e => dictSet acc e.1 e.2) d

/-- The keys of a dict, in order. -/
def dictKeys (d : List (String × PyVal)) : List String := d.map Prod.fst

@[simp] theorem dictKeys_nil : dictKeys [] = [] := rfl

@[simp] theorem dictKeys_cons (a : String) (b : PyVal)
    (rest : List (String × PyVal)) : dictKeys ((a, b) :: rest) = a :: dictKeys rest := rfl

@[simp] theorem dictKeys_append (l₁ l₂ : List (String × PyVal)) :
    dictKeys (l₁ ++ l₂) = dictKeys l₁ ++ dictKeys l₂ := by
  simp [dictKeys]

theorem dictLookup_dictSet (d : List (String × PyVal)) (k : String) (v : PyVal)
    (k' : String) :
    dictLookup (dictSet d k v) k' = if k' = k then some v else dictLookup d k' := by
  induction d with
  | nil =>
      rcases eq_or_ne k' k with h | h
      · subst h; simp [dictSet, dictLookup]
      · have h' : ¬ k = k' := fun hh => h hh.symm
        simp [dictSet, dictLookup, h, h']
  | cons e rest ih =>
      obtain ⟨a, b⟩ := e
      by_cases hak : a = k
      · subst hak
        rcases eq_or_ne k' a with h | h
        · subst h; simp [dictSet, dictLookup]
        · have h' : ¬ a = k' := fun hh => h hh.symm
          simp [dictSet, dictLookup, h, h']
      · by_cases h1 : a = k'
        · have h2 : ¬ k' = k := fun hh => hak (h1.trans hh)
          simp [dictSet, dictLookup, hak, h1, h2]
        · by_cases h2 : k' = k
          · subst h2; simp [dictSet, dictLookup, hak, h1, ih]
          · simp [dictSet, dictLookup, hak, h1, h2, ih]

theorem dictKeys_dictSet (d : List (String × PyVal)) (k : String) (v : PyVal) :
    dictKeys (dictSet d k v) =
      if k ∈ dictKeys d then dictKeys d else dictKeys d ++ [k] := by
  induction d with
  | nil => simp [dictSet]
  | cons e rest ih =>
      obtain ⟨a, b⟩ := e
      by_cases hak : a = k
      · subst hak
        simp [dictSet]
      · have hka : ¬ k = a := fun h => hak h.symm
        simp only [dictSet, if_neg hak, dictKeys_cons, ih, List.mem_cons]
        by_cases hmem : k ∈ dictKeys rest
        · simp [hmem, hka]
        · simp [hmem, hka]

theorem dictSet_of_not_mem (d : List (String × PyVal)) (k : String) (v : PyVal)
    (h : k ∉ dictKeys d) : dictSet d k v = d ++ [(k, v)] := by
  induction d with
  | nil => simp [dictSet]
  | cons e rest ih =>
      obtain ⟨a, b⟩ := e
      rw [dictKeys_cons, List.mem_cons] at h
      push_neg at h
      have hak : ¬ a = k := fun hh => h.1 hh.symm
      simp [dictSet, hak, ih h.2]

theorem dictLookup_append (l₁ l₂ : List (String × PyVal)) (k : String) :
    dictLookup (l₁ ++ l₂) k =
      match dictLookup l₁ k with
      | some v => some v
      | Option.none => dictLookup l₂ k := by
  induction l₁ with
  | nil => simp [dictLookup]
  | cons e rest ih =>
      obtain ⟨a, b⟩ := e
      by_cases h : a = k <;> simp [dictLookup, h, ih]

/-- An NGSI-LD Attribute Node of `pyngsild/proprel.py`: one of the three
classes `Property`, `GeoProperty` (both subclasses of `BaseProperty`) and
`Relationship`.  Fields mirror the instance attributes
`_name`, `_value` / `_object_`, `_observed_at` (already normalised to a string
by the `observed_at` setter, see `observed_at_setter` below), `_unit_code`,
`_datasetid`, `_properties` and `_relationships` (both `None` or a list). -/
inductive Attr : Type where
  | property (name : String) (value : PyVal) (observed_at : Option String)
      (unit_code : Option String) (datasetid : Option String)
      (properties : Option (List Attr)) (relationships : Option (List Attr)) : Attr
  | geoProperty (name : String) (value : PyVal) (observed_at : Option String)
      (datasetid : Option String) : Attr
  | relationship (name : String) (object_ : PyVal) (observed_at : Option String)
      (datasetid : Option String)
      (properties : Option (List Attr)) (relationships : Option (List Attr)) : Attr

/-- The `_name` attribute of a node. -/
def Attr.name : Attr → String
  | .property n _ _ _ _ _ _ => n
  | .geoProperty n _ _ _ => n
  | .relationship n _ _ _ _ _ => n

/-- Model of `if x is not None: d[k] = x` — the conditional assignment pattern used by
every `to_ngsild` for the optional `observedAt` / `unitCode` / `datasetId`
keys. -/
def optSet (d : List (String × PyVal)) (k : String) : Option String →
    List (String × PyVal)
  | some s => dictSet d k (PyVal.str s)
  | Option.none => d

/-- The body dict built by `Property.to_ngsild` before sub-properties and
sub-relationships are merged in (proprel.py lines 513-524). -/
def propBase (v : PyVal) (oa uc di : Option String) : List (String × PyVal) :=
  optSet (optSet (optSet [("type", PyVal.str "Property"), ("value", v)]
    "observedAt" oa) "unitCode" uc) "datasetId" di

/-- The body dict built by `GeoProperty.to_ngsild`
(proprel.py lines 249-258). -/
def geoBase (v : PyVal) (oa di : Option String) : List (String × PyVal) :=
  optSet (optSet [("type", PyVal.str "GeoProperty"), ("value", v)]
    "observedAt" oa) "datasetId" di

/-- The body dict built by `Relationship.to_ngsild` before sub-properties and
sub-relationships are merged in (proprel.py lines 813-822). -/
def relBase (o : PyVal) (oa di : Option String) : List (String × PyVal) :=
  optSet (optSet [("type", PyVal.str "Relationship"), ("object", o)]
    "observedAt" oa) "datasetId" di

mutual

/-- Model of `to_ngsild` of the three Attribute Node classes: the single-key dict
`{name: body}` where `body` starts from the variant base and, for `Property`
and `Relationship`, has the rendered sub-properties and then the rendered
sub-relationships merged in (proprel.py lines 497-538, 235-260, 797-836). -/
def Attr.to_ngsild : Attr → List (String × PyVal)
  | .property n v oa uc di ps rs =>
      let body := propBase v oa uc di
      let body := match ps with
        | some l => dictUpdate body (mergeRenders [] l)
        | Option.none => body
      let body := match rs with
        | some l => dictUpdate body (mergeRenders [] l)
        | Option.none => body
      [(n, PyVal.dict body)]
  | .geoProperty n v oa di => [(n, PyVal.dict (geoBase v oa di))]
  | .relationship n o oa di ps rs =>
      let body := relBase o oa di
      let body := match ps with
        | some l => dictUpdate body (mergeRenders [] l)
        | Option.none => body
      let body := match rs with
        | some l => dictUpdate body (mergeRenders [] l)
        | Option.none => body
      [(n, PyVal.dict body)]

/-- The accumulation loop `p_dict = {}; for p in ...: p_dict.update(p.to_ngsild())`
shared by `Property.to_ngsild`, `Relationship.to_ngsild` and
`Entity.to_ngsild`. -/
def mergeRenders (acc : List (String × PyVal)) : List Attr → List (String × PyVal)
  | [] => acc
  | a :: rest => mergeRenders (dictUpdate acc a.to_ngsild) rest

end

/-- The body part of a rendered node: the value under the node's single
top-level key. -/
def Attr.renderBody (a : Attr) : PyVal :=
  match a.to_ngsild with
  | (_, b) :: _ => b
  | [] => PyVal.pynone

/-- Every `to_ngsild` result is the single-key dict `{name: body}`. -/
theorem Attr.to_ngsild_eq (a : Attr) : a.to_ngsild = [(a.name, a.renderBody)] := by
  cases a <;> rfl

/-- Specification view of `mergeRenders`: successive single-key assignments
`d[child.name] = child.renderBody` in child order. -/
def foldSet (acc : List (String × PyVal)) : List Attr → List (String × PyVal)
  | [] => acc
  | a :: rest => foldSet (dictSet acc a.name a.renderBody) rest

theorem mergeRenders_eq_foldSet (cs : List Attr) :
    ∀ acc, mergeRenders acc cs = foldSet acc cs := by
  induction cs with
  | nil => intro acc; rfl
  | cons a rest ih =>
      intro acc
      rw [mergeRenders, foldSet, Attr.to_ngsild_eq]
      simp only [dictUpdate, List.foldl_cons, List.foldl_nil]
      exact ih _

/-- The last element of the list whose `name` is `k`, if any — the child that
wins the last-write-wins merge. -/
def findLastNamed : List Attr → String → Option Attr
  | [], _ => Option.none
  | a :: rest, k =>
      match findLastNamed rest k with
      | some b => some b
      | Option.none => if a.name = k then some a else Option.none

theorem dictLookup_foldSet (cs : List Attr) :
    ∀ (acc : List (String × PyVal)) (k : String),
    dictLookup (foldSet acc cs) k =
      match findLastNamed cs k with
      | some a => some a.renderBody
      | Option.none => dictLookup acc k := by
  induction cs with
  | nil => intro acc k; rfl
  | cons a rest ih =>
      intro acc k
      rw [foldSet, ih]
      cases hfind : findLastNamed rest k with
      | some b => simp [findLastNamed, hfind]
      | none =>
          by_cases h : a.name = k
          · simp [findLastNamed, hfind, dictLookup_dictSet, h]
          · have h' : ¬ k = a.name := fun hh => h hh.symm
            simp [findLastNamed, hfind, dictLookup_dictSet, h, h']

/-- Append a key at the end unless it is already present (the effect a single
child has on the parent's key order). -/
def insertKey (ks : List String) (k : String) : List String :=
  if k ∈ ks then ks else ks ++ [k]

/-- Key order produced by merging a sequence of single-key dicts: each name at
the position of its first occurrence. -/
def firstOccurrences (l : List String) : List String := l.foldl insertKey []

theorem dictKeys_foldSet (cs : List Attr) :
    ∀ acc, dictKeys (foldSet acc cs) =
      cs.foldl (fun ks a => insertKey ks a.name) (dictKeys acc) := by
  induction cs with
  | nil => intro acc; rfl
  | cons a rest ih =>
      intro acc
      rw [foldSet, ih, List.foldl_cons]
      congr 1
      rw [dictKeys_dictSet, insertKey]

theorem mem_foldl_insertKey (names : List String) :
    ∀ ks k, k ∈ names.foldl insertKey ks → k ∈ ks ∨ k ∈ names := by
  induction names with
  | nil => intro ks k h; exact Or.inl h
  | cons n rest ih =>
      intro ks k h
      rcases ih (insertKey ks n) k h with h' | h'
      · unfold insertKey at h'
        by_cases hm : n ∈ ks
        · rw [if_pos hm] at h'; exact Or.inl h'
        · rw [if_neg hm] at h'
          rcases List.mem_append.mp h' with h'' | h''
          · exact Or.inl h''
          · simp only [List.mem_singleton] at h''
            subst h''
            exact Or.inr (List.mem_cons_self _ _)
      · exact Or.inr (List.mem_cons_of_mem _ h')

theorem insertKey_nodup (ks : List String) (k : String) (h : ks.Nodup) :
    (insertKey ks k).Nodup := by
  unfold insertKey
  by_cases hm : k ∈ ks
  · simpa [hm] using h
  · simp only [if_neg hm, List.nodup_append, List.nodup_cons, List.nodup_nil]
    exact ⟨h, by simp, by simpa [List.disjoint_singleton] using hm⟩

theorem foldl_insertKey_nodup (names : List String) :
    ∀ ks, ks.Nodup → (names.foldl insertKey ks).Nodup := by
  induction names with
  | nil => intro ks h; exact h
  | cons n rest ih =>
      intro ks h
      exact ih (insertKey ks n) (insertKey_nodup ks n h)

theorem dictUpdate_append_of_fresh (es : List (String × PyVal)) :
    ∀ base, (dictKeys es).Nodup → (∀ k ∈ dictKeys es, k ∉ dictKeys base) →
    dictUpdate base es = base ++ es := by
  induction es with
  | nil => intro base _ _; simp [dictUpdate]
  | cons e rest ih =>
      intro base hnd hfresh
      obtain ⟨k, v⟩ := e
      rw [dictKeys_cons, List.nodup_cons] at hnd
      have hset : dictSet base k v = base ++ [(k, v)] :=
        dictSet_of_not_mem base k v (hfresh k (List.mem_cons_self _ _))
      have step : dictUpdate base ((k, v) :: rest) =
          dictUpdate (dictSet base k v) rest := by
        simp [dictUpdate]
      rw [step, hset, ih (base ++ [(k, v)]) hnd.2]
      · simp
      · intro k' hk'
        rw [dictKeys_append]
        simp only [List.mem_append]
        rintro (hb | hb)
        · exact hfresh k' (List.mem_cons_of_mem _ hk') hb
        · simp only [dictKeys_cons, dictKeys_nil, List.mem_singleton] at hb
          subst hb
          exact hnd.1 hk'

/-- The `Entity` class of `pyngsild/entity.py`: identifier, type, optional
`@context` and the two optional attribute collections. -/
structure Entity : Type where
  id : PyVal
  type : PyVal
  at_context : PyVal
  properties : Option (List Attr)
  relationships : Option (List Attr)

/-- Model of `Entity.__init__` called with only `id` and `type`: both collection
arguments default to `None` and `at_context` is set to `None`
(entity.py lines 27-39). -/
def Entity.init (id ty : PyVal) : Entity :=
  { id := id, type := ty, at_context := PyVal.pynone,
    properties := Option.none, relationships := Option.none }

/-- Model of `Entity.to_ngsild` (entity.py lines 215-250): the three fixed keys, then
the rendered properties and the rendered relationships merged in. -/
def Entity.to_ngsild (e : Entity) : List (String × PyVal) :=
  let ngsild := [("@context", e.at_context), ("id", e.id), ("type", e.type)]
  let ngsild := match e.properties with
    | some l => dictUpdate ngsild (mergeRenders [] l)
    | Option.none => ngsild
  match e.relationships with
  | some l => dictUpdate ngsild (mergeRenders [] l)
  | Option.none => ngsild

theorem dictLookup_eq_none_of_not_mem (d : List (String × PyVal)) (k : String)
    (h : k ∉ dictKeys d) : dictLookup d k = Option.none := by
  induction d with
  | nil => rfl
  | cons e rest ih =>
      obtain ⟨a, b⟩ := e
      rw [dictKeys_cons, List.mem_cons] at h
      push_neg at h
      have hak : ¬ a = k := fun hh => h.1 hh.symm
      simp [dictLookup, hak, ih h.2]

theorem dictLookup_optSet_ne (d : List (String × PyVal)) (k : String)
    (o : Option String) (k' : String) (h : ¬ k' = k) :
    dictLookup (optSet d k o) k' = dictLookup d k' := by
  cases o with
  | none => rfl
  | some s => rw [optSet, dictLookup_dictSet, if_neg h]

theorem propBase_lookup_type (v : PyVal) (oa uc di : Option String) :
    dictLookup (propBase v oa uc di) "type" = some (PyVal.str "Property") := by
  rw [propBase, dictLookup_optSet_ne _ _ _ _ (by decide),
    dictLookup_optSet_ne _ _ _ _ (by decide),
    dictLookup_optSet_ne _ _ _ _ (by decide)]
  rfl

theorem propBase_lookup_value (v : PyVal) (oa uc di : Option String) :
    dictLookup (propBase v oa uc di) "value" = some v := by
  rw [propBase, dictLookup_optSet_ne _ _ _ _ (by decide),
    dictLookup_optSet_ne _ _ _ _ (by decide),
    dictLookup_optSet_ne _ _ _ _ (by decide)]
  rfl

theorem geoBase_lookup_type (v : PyVal) (oa di : Option String) :
    dictLookup (geoBase v oa di) "type" = some (PyVal.str "GeoProperty") := by
  rw [geoBase, dictLookup_optSet_ne _ _ _ _ (by decide),
    dictLookup_optSet_ne _ _ _ _ (by decide)]
  rfl

theorem geoBase_lookup_value (v : PyVal) (oa di : Option String) :
    dictLookup (geoBase v oa di) "value" = some v := by
  rw [geoBase, dictLookup_optSet_ne _ _ _ _ (by decide),
    dictLookup_optSet_ne _ _ _ _ (by decide)]
  rfl

theorem relBase_lookup_type (o : PyVal) (oa di : Option String) :
    dictLookup (relBase o oa di) "type" = some (PyVal.str "Relationship") := by
  rw [relBase, dictLookup_optSet_ne _ _ _ _ (by decide),
    dictLookup_optSet_ne _ _ _ _ (by decide)]
  rfl

theorem relBase_lookup_object (o : PyVal) (oa di : Option String) :
    dictLookup (relBase o oa di) "object" = some o := by
  rw [relBase, dictLookup_optSet_ne _ _ _ _ (by decide),
    dictLookup_optSet_ne _ _ _ _ (by decide)]
  rfl

theorem dictKeys_foldSet_nil (cs : List Attr) :
    dictKeys (foldSet [] cs) = firstOccurrences (cs.map Attr.name) := by
  rw [dictKeys_foldSet, firstOccurrences, List.foldl_map]
  rfl

theorem foldSet_keys_nodup (cs : List Attr) : (dictKeys (foldSet [] cs)).Nodup := by
  rw [dictKeys_foldSet_nil, firstOccurrences]
  exact foldl_insertKey_nodup _ [] List.nodup_nil

theorem mem_foldSet_keys (cs : List Attr) (k : String)
    (h : k ∈ dictKeys (foldSet [] cs)) : k ∈ cs.map Attr.name := by
  rw [dictKeys_foldSet_nil, firstOccurrences] at h
  rcases mem_foldl_insertKey _ _ _ h with h' | h'
  · cases h'
  · exact h'

/-- Merging the rendered children into a body whose own keys avoid the child
names appends the merged children behind the body. -/
theorem body_append (base : List (String × PyVal)) (cs : List Attr)
    (h : ∀ a ∈ cs, a.name ∉ dictKeys base) :
    dictUpdate base (mergeRenders [] cs) = base ++ foldSet [] cs := by
  rw [mergeRenders_eq_foldSet]
  apply dictUpdate_append_of_fresh (foldSet [] cs) base (foldSet_keys_nodup cs)
  intro k hk
  rcases List.mem_map.mp (mem_foldSet_keys cs k hk) with ⟨a, ha, rfl⟩
  exact h a ha

theorem dictLookup_body_child (base : List (String × PyVal)) (cs : List Attr)
    (k : String) (hk : k ∉ dictKeys base) :
    dictLookup (base ++ foldSet [] cs) k =
      (findLastNamed cs k).map Attr.renderBody := by
  rw [dictLookup_append, dictLookup_eq_none_of_not_mem base k hk]
  rw [dictLookup_foldSet]
  cases findLastNamed cs k <;> simp [dictLookup]

/-- C1: for every Attribute Node variant (Property, GeoProperty, Relationship)
with any name, payload, optional observedAt and optional datasetId (and, for
Property, any unitCode) and no children, `to_ngsild` returns a mapping with
exactly one top-level key equal to the node's name, whose value contains a
`type` key equal to the variant tag and the variant's required payload key
(`value` for Property/GeoProperty, `object` for Relationship). -/
theorem C1_render_single_key_type_payload :
    ∀ (n : String) (v o : PyVal) (oa uc di : Option String),
    ((Attr.property n v oa uc di Option.none Option.none).to_ngsild =
        [(n, PyVal.dict (propBase v oa uc di))] ∧
      dictLookup (propBase v oa uc di) "type" = some (PyVal.str "Property") ∧
      dictLookup (propBase v oa uc di) "value" = some v) ∧
    ((Attr.geoProperty n v oa di).to_ngsild = [(n, PyVal.dict (geoBase v oa di))] ∧
      dictLookup (geoBase v oa di) "type" = some (PyVal.str "GeoProperty") ∧
      dictLookup (geoBase v oa di) "value" = some v) ∧
    ((Attr.relationship n o oa di Option.none Option.none).to_ngsild =
        [(n, PyVal.dict (relBase o oa di))] ∧
      dictLookup (relBase o oa di) "type" = some (PyVal.str "Relationship") ∧
      dictLookup (relBase o oa di) "object" = some o) := by
  intro n v o oa uc di
  exact ⟨⟨rfl, propBase_lookup_type v oa uc di, propBase_lookup_value v oa uc di⟩,
    ⟨rfl, geoBase_lookup_type v oa di, geoBase_lookup_value v oa di⟩,
    ⟨rfl, relBase_lookup_type o oa di, relBase_lookup_object o oa di⟩⟩

/-- C3: rendering an Entity constructed with an id and a type and with no
properties, no relationships and no context yields exactly the three-key
mapping from `@context` to `None`, `id` to the id and `type` to the type,
with no other keys. -/
theorem C3_empty_entity_render :
    ∀ (id ty : PyVal), (Entity.init id ty).to_ngsild =
      [("@context", PyVal.pynone), ("id", id), ("type", ty)] := by
  intro id ty
  rfl

/-- C2: for a Property or Relationship node with owned children whose names do
not collide with the parent's own body keys, `to_ngsild` appends each child's
single-key rendering as a sibling key inside the parent's body (never nested
under the payload key, whose value stays the parent's own), keys appear in the
order children were added (first occurrence), and when two children share a
name the later one in iteration order is the one whose body is stored. -/
theorem C2_child_merge :
    ∀ (n : String) (v o : PyVal) (oa uc di : Option String) (cs : List Attr),
    (∀ a ∈ cs, a.name ∉ dictKeys (propBase v oa uc di)) →
    (∀ a ∈ cs, a.name ∉ dictKeys (relBase o oa di)) →
    ((Attr.property n v oa uc di (some cs) Option.none).to_ngsild =
        [(n, PyVal.dict (propBase v oa uc di ++ foldSet [] cs))] ∧
      dictLookup (propBase v oa uc di ++ foldSet [] cs) "value" = some v ∧
      (∀ k, k ∉ dictKeys (propBase v oa uc di) →
        dictLookup (propBase v oa uc di ++ foldSet [] cs) k =
          (findLastNamed cs k).map Attr.renderBody)) ∧
    ((Attr.relationship n o oa di Option.none (some cs)).to_ngsild =
        [(n, PyVal.dict (relBase o oa di ++ foldSet [] cs))] ∧
      dictLookup (relBase o oa di ++ foldSet [] cs) "object" = some o ∧
      (∀ k, k ∉ dictKeys (relBase o oa di) →
        dictLookup (relBase o oa di ++ foldSet [] cs) k =
          (findLastNamed cs k).map Attr.renderBody)) ∧
    dictKeys (foldSet [] cs) = firstOccurrences (cs.map Attr.name) := by
  intro n v o oa uc di cs h1 h2
  refine ⟨⟨?_, ?_, ?_⟩, ⟨?_, ?_, ?_⟩, dictKeys_foldSet_nil cs⟩
  · show [(n, PyVal.dict (dictUpdate (propBase v oa uc di) (mergeRenders [] cs)))] = _
    rw [body_append (propBase v oa uc di) cs h1]
  · rw [dictLookup_append, propBase_lookup_value]
  · intro k hk
    exact dictLookup_body_child _ cs k hk
  · show [(n, PyVal.dict (dictUpdate (relBase o oa di) (mergeRenders [] cs)))] = _
    rw [body_append (relBase o oa di) cs h2]
  · rw [dictLookup_append, relBase_lookup_object]
  · intro k hk
    exact dictLookup_body_child _ cs k hk

/-- First child for the C2 witness: `Property(name='temperature', value=37,
unit_code='CEL')`. -/
def c2childA : Attr :=
  Attr.property "temperature" (PyVal.pyint 37) Option.none (some "CEL")
    Option.none Option.none Option.none

/-- Second child for the C2 witness, sharing the first child's name. -/
def c2childB : Attr :=
  Attr.property "temperature" (PyVal.pyint 38) Option.none Option.none
    Option.none Option.none Option.none

theorem C2_child_merge_witness :
    (∀ a ∈ [c2childA, c2childB],
      a.name ∉ dictKeys (propBase (PyVal.pyint 5) Option.none Option.none Option.none)) ∧
    (∀ a ∈ [c2childA, c2childB],
      a.name ∉ dictKeys (relBase (PyVal.str "uri:x") Option.none Option.none)) ∧
    (Attr.property "plant_health" (PyVal.pyint 5) Option.none Option.none
        Option.none (some [c2childA, c2childB]) Option.none).to_ngsild =
      [("plant_health", PyVal.dict
        [("type", PyVal.str "Property"), ("value", PyVal.pyint 5),
         ("temperature", PyVal.dict
           [("type", PyVal.str "Property"), ("value", PyVal.pyint 38)])])] := by
  refine ⟨by decide, by decide, ?_⟩
  have h := (C2_child_merge "plant_health" (PyVal.pyint 5) (PyVal.str "uri:x")
    Option.none Option.none Option.none [c2childA, c2childB]
    (by decide) (by decide)).1.1
  rw [h]
  rfl

/-- A Python `tzinfo` object as far as `proprel.py` inspects it:
`utcoffset()` either resolves to a concrete offset (in minutes) or returns
`None` (a zone that does not resolve to an offset). -/
structure TzInfo : Type where
  utcoffsetMinutes : Option Int

/-- A Python `datetime.datetime` value: calendar fields plus the optional
`tzinfo`. -/
structure Datetime : Type where
  year : Nat
  month : Nat
  day : Nat
  hour : Nat
  minute : Nat
  second : Nat
  microsecond : Nat
  tzinfo : Option TzInfo

/-- Model of `is_dt_aware` (proprel.py lines 34-57): a datetime is aware iff its
`tzinfo` is not `None` and `tzinfo.utcoffset(dt)` is not `None`. -/
def is_dt_aware (dt : Datetime) : Bool :=
  match dt.tzinfo with
  | some tz => tz.utcoffsetMinutes.isSome
  | Option.none => false

/-- Left-pad the decimal representation of `n` with zeros to `w` digits. -/
def padNat (w : Nat) (n : Nat) : String :=
  let s := toString n
  if s.length < w then String.mk (List.replicate (w - s.length) '0') ++ s else s

/-- A UTC offset in minutes printed as `+HH:MM` / `-HH:MM`. -/
def offsetText (off : Int) : String :=
  let sign := if off < 0 then "-" else "+"
  let m := off.natAbs
  sign ++ padNat 2 (m / 60) ++ ":" ++ padNat 2 (m % 60)

/-- Python's `datetime.isoformat()`: extended ISO-8601 text; microseconds are
printed (to six digits) only when non-zero, and the offset suffix is printed
only for a `tzinfo` whose `utcoffset()` is not `None`. -/
def Datetime.isoformat (dt : Datetime) : String :=
  padNat 4 dt.year ++ "-" ++ padNat 2 dt.month ++ "-" ++ padNat 2 dt.day ++ "T" ++
    padNat 2 dt.hour ++ ":" ++ padNat 2 dt.minute ++ ":" ++ padNat 2 dt.second ++
    (if dt.microsecond = 0 then "" else "." ++ padNat 6 dt.microsecond) ++
    (match dt.tzinfo with
     | some tz =>
        match tz.utcoffsetMinutes with
        | some off => offsetText off
        | Option.none => ""
     | Option.none => "")

/-- Model of `local_tz.localize(dt)`: attach the zone to a naive datetime. -/
def TzInfo.localize (tz : TzInfo) (dt : Datetime) : Datetime :=
  { dt with tzinfo := some tz }

/-- Model of `as_isoformat` (proprel.py lines 60-98); `local_tz` is the zone returned
by `tzlocal.get_localzone()`, the zone of the host running the package. -/
def as_isoformat (local_tz : TzInfo) (dt : Datetime) : String :=
  if is_dt_aware dt then dt.isoformat
  else ((local_tz.localize dt).isoformat)

/-- The dynamically typed argument of the `observed_at` setter: `None`, a
`datetime`, a `str`, or a value of any other type. -/
inductive TimestampArg : Type where
  | pyNone : TimestampArg
  | dt (d : Datetime) : TimestampArg
  | text (s : String) : TimestampArg
  | other (v : PyVal) : TimestampArg

/-- The `observed_at` setter shared by `BaseProperty` (proprel.py lines
152-162) and `Relationship` (lines 622-632), as a transformer of the stored
`_observed_at` slot.  The returned Bool is true when the setter raises
`TypeError` (in which case the slot is left untouched). -/
def observed_at_setter (local_tz : TzInfo) (cur : Option String)
    (arg : TimestampArg) : Option String × Bool :=
  match arg with
  | .pyNone => (Option.none, false)
  | .dt d => (some (as_isoformat local_tz d), false)
  | .text s => (some s, false)
  | .other _ => (cur, true)

/-- A concrete zone with a resolved offset, for the C4 counterexample. -/
def tzParis : TzInfo := { utcoffsetMinutes := some 120 }

/-- C4 counterexample: the claim says a value of any type other than text or a
point-in-time causes an InvalidTimestampType error, but assigning `None`
(which is neither) raises nothing: the code stores `None`, clearing the slot
(proprel.py line 154-155). -/
theorem C4_counterexample :
    observed_at_setter tzParis (some "2021-07-21T13:23:54+00:00")
      TimestampArg.pyNone = (Option.none, false) := rfl

/-- C4 amended: text is stored unchanged; an aware datetime is stored as its
extended ISO-8601 text; a naive datetime gets the process host's local zone
attached before rendering; `None` clears the slot without error; and a value
of any other type raises a TypeError with the stored value left unchanged. -/
theorem C4_observed_at_normalization :
    ∀ (tz : TzInfo) (cur : Option String),
    (∀ s, observed_at_setter tz cur (.text s) = (some s, false)) ∧
    (∀ d, is_dt_aware d = true →
      observed_at_setter tz cur (.dt d) = (some d.isoformat, false)) ∧
    (∀ d, is_dt_aware d = false →
      observed_at_setter tz cur (.dt d) = (some (tz.localize d).isoformat, false)) ∧
    observed_at_setter tz cur .pyNone = (Option.none, false) ∧
    (∀ v, observed_at_setter tz cur (.other v) = (cur, true)) := by
  intro tz cur
  refine ⟨fun s => rfl, fun d hd => ?_, fun d hd => ?_, rfl, fun v => rfl⟩
  · simp [observed_at_setter, as_isoformat, hd]
  · simp [observed_at_setter, as_isoformat, hd]

/-- An aware datetime (UTC offset 0) for the C4 witness:
`datetime(2021, 7, 21, 13, 23, 54, 78099, tzinfo=timezone.utc)`. -/
def dtAwareW : Datetime :=
  { year := 2021, month := 7, day := 21, hour := 13, minute := 23, second := 54,
    microsecond := 78099, tzinfo := some { utcoffsetMinutes := some 0 } }

/-- A naive datetime for the C4 witness:
`datetime(2021, 7, 22, 10, 11, 12, 13)`. -/
def dtNaiveW : Datetime :=
  { year := 2021, month := 7, day := 22, hour := 10, minute := 11, second := 12,
    microsecond := 13, tzinfo := Option.none }

theorem C4_observed_at_normalization_witness :
    is_dt_aware dtAwareW = true ∧
    is_dt_aware dtNaiveW = false ∧
    observed_at_setter tzParis (some "prev") (.dt dtAwareW) =
      (some "2021-07-21T13:23:54.078099+00:00", false) ∧
    observed_at_setter tzParis (some "prev") (.dt dtNaiveW) =
      (some "2021-07-22T10:11:12.000013+02:00", false) ∧
    observed_at_setter tzParis (some "prev") (.other (PyVal.pyint 3)) =
      (some "prev", true) := by
  have h := C4_observed_at_normalization tzParis (some "prev")
  refine ⟨rfl, rfl, ?_, ?_, h.2.2.2.2 (PyVal.pyint 3)⟩
  · rw [h.2.1 dtAwareW rfl]
    rfl
  · rw [h.2.2.1 dtNaiveW rfl]
    rfl

/-- A dynamically typed Python value as passed to the mutators and broker
operations: `None`, an Attribute Node instance, an Entity instance, a list,
or a value of any other type. -/
inductive Dyn : Type where
  | pyNone : Dyn
  | attr (a : Attr) : Dyn
  | entity (e : Entity) : Dyn
  | list (l : List Dyn) : Dyn
  | other (v : PyVal) : Dyn

/-- Model of `isinstance(a, Property)` — GeoProperty and Relationship are not
`Property` instances in proprel.py. -/
def Attr.isProperty : Attr → Bool
  | .property .. => true
  | _ => false

/-- Model of `isinstance(a, GeoProperty)`. -/
def Attr.isGeoProperty : Attr → Bool
  | .geoProperty .. => true
  | _ => false

/-- Model of `isinstance(a, Relationship)`. -/
def Attr.isRelationship : Attr → Bool
  | .relationship .. => true
  | _ => false

/-- Model of `isinstance(a, BaseProperty)`: Property or GeoProperty. -/
def Attr.isBaseProperty (a : Attr) : Bool := a.isProperty || a.isGeoProperty

/-- Whether the node is one of the two classes that own children. -/
def Attr.isPropOrRel (a : Attr) : Bool := a.isProperty || a.isRelationship

def Dyn.isPropertyInst : Dyn → Bool
  | .attr a => a.isProperty
  | _ => false

def Dyn.isBasePropertyInst : Dyn → Bool
  | .attr a => a.isBaseProperty
  | _ => false

def Dyn.isRelationshipInst : Dyn → Bool
  | .attr a => a.isRelationship
  | _ => false

def Dyn.isEntityInst : Dyn → Bool
  | .entity _ => true
  | _ => false

def Dyn.isListInst : Dyn → Bool
  | .list _ => true
  | _ => false

def Dyn.isNoneInst : Dyn → Bool
  | .pyNone => true
  | _ => false

def Dyn.asAttr : Dyn → Option Attr
  | .attr a => some a
  | _ => Option.none

/-- The attribute nodes contained in a list of dynamic values (used only
after an all-elements isinstance check has succeeded, in which case it is the
identity on the list). -/
def dynAttrs (l : List Dyn) : List Attr := l.filterMap Dyn.asAttr

/-- The `_properties` slot of a node (`None` on GeoProperty, which has no
such attribute). -/
def Attr.propertiesField : Attr → Option (List Attr)
  | .property _ _ _ _ _ ps _ => ps
  | .relationship _ _ _ _ ps _ => ps
  | .geoProperty .. => Option.none

/-- The `_relationships` slot of a node. -/
def Attr.relationshipsField : Attr → Option (List Attr)
  | .property _ _ _ _ _ _ rs => rs
  | .relationship _ _ _ _ _ rs => rs
  | .geoProperty .. => Option.none

/-- Overwrite the `_properties` slot (identity on GeoProperty). -/
def Attr.withPropertiesField : Attr → Option (List Attr) → Attr
  | .property n v oa uc di _ rs, ps => .property n v oa uc di ps rs
  | .relationship n o oa di _ rs, ps => .relationship n o oa di ps rs
  | .geoProperty n v oa di, _ => .geoProperty n v oa di

/-- Overwrite the `_relationships` slot (identity on GeoProperty). -/
def Attr.withRelationshipsField : Attr → Option (List Attr) → Attr
  | .property n v oa uc di ps _, rs => .property n v oa uc di ps rs
  | .relationship n o oa di ps _, rs => .relationship n o oa di ps rs
  | .geoProperty n v oa di, _ => .geoProperty n v oa di

theorem Attr.propertiesField_withPropertiesField (a : Attr)
    (x : Option (List Attr)) (h : a.isPropOrRel = true) :
    (a.withPropertiesField x).propertiesField = x := by
  cases a <;> simp_all [Attr.isPropOrRel, Attr.isProperty, Attr.isRelationship,
    Attr.withPropertiesField, Attr.propertiesField]

theorem Attr.withPropertiesField_twice (a : Attr) (x y : Option (List Attr)) :
    (a.withPropertiesField x).withPropertiesField y = a.withPropertiesField y := by
  cases a <;> rfl

/-- Model of `Entity.properties` setter (entity.py lines 77-92): `None` clears, a
single Property is wrapped in a list, a list is stored only when every
element is a Property (otherwise nothing happens), and any other value
raises TypeError.  The Bool is true when TypeError is raised. -/
def Entity.set_properties (e : Entity) (arg : Dyn) : Entity × Bool :=
  match arg with
  | .pyNone => ({ e with properties := Option.none }, false)
  | .attr a =>
      if a.isProperty then ({ e with properties := some [a] }, false)
      else (e, true)
  | .list l =>
      if l.all Dyn.isPropertyInst then
        ({ e with properties := some (dynAttrs l) }, false)
      else (e, false)
  | _ => (e, true)

/-- Model of `Entity.relationships` setter (entity.py lines 99-114). -/
def Entity.set_relationships (e : Entity) (arg : Dyn) : Entity × Bool :=
  match arg with
  | .pyNone => ({ e with relationships := Option.none }, false)
  | .attr a =>
      if a.isRelationship then ({ e with relationships := some [a] }, false)
      else (e, true)
  | .list l =>
      if l.all Dyn.isRelationshipInst then
        ({ e with relationships := some (dynAttrs l) }, false)
      else (e, false)
  | _ => (e, true)

/-- Model of `Entity.add_properties` (entity.py lines 117-163): `None` is a no-op, a
single Property is appended (wrapped in a list on first use), an all-Property
list is appended element-wise (or stored as-is on first use), a list with any
non-Property element does nothing, anything else raises TypeError. -/
def Entity.add_properties (e : Entity) (arg : Dyn) : Entity × Bool :=
  match arg with
  | .pyNone => (e, false)
  | .attr a =>
      if a.isProperty then
        match e.properties with
        | Option.none => ({ e with properties := some [a] }, false)
        | some ps => ({ e with properties := some (ps ++ [a]) }, false)
      else (e, true)
  | .list l =>
      if l.all Dyn.isPropertyInst then
        match e.properties with
        | Option.none => ({ e with properties := some (dynAttrs l) }, false)
        | some ps => ({ e with properties := some (ps ++ dynAttrs l) }, false)
      else (e, false)
  | _ => (e, true)

/-- Model of `Entity.add_relationships` (entity.py lines 166-213). -/
def Entity.add_relationships (e : Entity) (arg : Dyn) : Entity × Bool :=
  match arg with
  | .pyNone => (e, false)
  | .attr a =>
      if a.isRelationship then
        match e.relationships with
        | Option.none => ({ e with relationships := some [a] }, false)
        | some rs => ({ e with relationships := some (rs ++ [a]) }, false)
      else (e, true)
  | .list l =>
      if l.all Dyn.isRelationshipInst then
        match e.relationships with
        | Option.none => ({ e with relationships := some (dynAttrs l) }, false)
        | some rs => ({ e with relationships := some (rs ++ dynAttrs l) }, false)
      else (e, false)
  | _ => (e, true)

/-- Model of `Property.properties` / `Relationship.properties` setter (proprel.py
lines 346-364 and 648-666 — identical code; elements need only be
`BaseProperty` here).  GeoProperty has no such setter; on it the model is the
identity. -/
def Attr.set_properties (self : Attr) (arg : Dyn) : Attr × Bool :=
  match arg with
  | .pyNone => (self.withPropertiesField Option.none, false)
  | .attr a =>
      if a.isBaseProperty then (self.withPropertiesField (some [a]), false)
      else (self, true)
  | .list l =>
      if l.all Dyn.isBasePropertyInst then
        (self.withPropertiesField (some (dynAttrs l)), false)
      else (self, false)
  | _ => (self, true)

/-- Model of `Property.relationships` / `Relationship.relationships` setter
(proprel.py lines 371-389 and 673-690). -/
def Attr.set_relationships (self : Attr) (arg : Dyn) : Attr × Bool :=
  match arg with
  | .pyNone => (self.withRelationshipsField Option.none, false)
  | .attr a =>
      if a.isRelationship then (self.withRelationshipsField (some [a]), false)
      else (self, true)
  | .list l =>
      if l.all Dyn.isRelationshipInst then
        (self.withRelationshipsField (some (dynAttrs l)), false)
      else (self, false)
  | _ => (self, true)

/-- Model of `Property.add_properties` / `Relationship.add_properties` (proprel.py
lines 392-442 and 693-743 — identical code). -/
def Attr.add_properties (self : Attr) (arg : Dyn) : Attr × Bool :=
  match arg with
  | .pyNone => (self, false)
  | .attr a =>
      if a.isBaseProperty then
        match self.propertiesField with
        | Option.none => (self.withPropertiesField (some [a]), false)
        | some ps => (self.withPropertiesField (some (ps ++ [a])), false)
      else (self, true)
  | .list l =>
      if l.all Dyn.isBasePropertyInst then
        match self.propertiesField with
        | Option.none => (self.withPropertiesField (some (dynAttrs l)), false)
        | some ps => (self.withPropertiesField (some (ps ++ dynAttrs l)), false)
      else (self, false)
  | _ => (self, true)

/-- Model of `Property.add_relationships` / `Relationship.add_relationships`
(proprel.py lines 445-495 and 746-795 — identical code). -/
def Attr.add_relationships (self : Attr) (arg : Dyn) : Attr × Bool :=
  match arg with
  | .pyNone => (self, false)
  | .attr a =>
      if a.isRelationship then
        match self.relationshipsField with
        | Option.none => (self.withRelationshipsField (some [a]), false)
        | some rs => (self.withRelationshipsField (some (rs ++ [a])), false)
      else (self, true)
  | .list l =>
      if l.all Dyn.isRelationshipInst then
        match self.relationshipsField with
        | Option.none => (self.withRelationshipsField (some (dynAttrs l)), false)
        | some rs => (self.withRelationshipsField (some (rs ++ dynAttrs l)), false)
      else (self, false)
  | _ => (self, true)

/-- C7: on an Entity and on a Property/Relationship node, `add_properties`
with an absent (`None`) argument leaves the receiver unchanged; with a single
node when no properties exist it stores a one-element sequence; and calling
it twice with the same single node yields a two-element ordered sequence
(duplicates kept, not deduplicated). -/
theorem C7_add_properties :
    ∀ (e : Entity) (self p : Attr),
    (Entity.add_properties e .pyNone = (e, false) ∧
      (e.properties = Option.none → Attr.isProperty p = true →
        Entity.add_properties e (.attr p) = ({ e with properties := some [p] }, false) ∧
        Entity.add_properties (Entity.add_properties e (.attr p)).1 (.attr p) =
          ({ e with properties := some [p, p] }, false))) ∧
    (Attr.isPropOrRel self = true →
      Attr.add_properties self .pyNone = (self, false) ∧
      (self.propertiesField = Option.none → Attr.isBaseProperty p = true →
        Attr.add_properties self (.attr p) =
          (self.withPropertiesField (some [p]), false) ∧
        Attr.add_properties (Attr.add_properties self (.attr p)).1 (.attr p) =
          (self.withPropertiesField (some [p, p]), false))) := by
  intro e self p
  constructor
  · refine ⟨rfl, fun hnone hp => ⟨?_, ?_⟩⟩
    · simp [Entity.add_properties, hp, hnone]
    · simp [Entity.add_properties, hp, hnone]
  · intro hself
    refine ⟨rfl, fun hnone hp => ⟨?_, ?_⟩⟩
    · simp [Attr.add_properties, hp, hnone]
    · simp [Attr.add_properties, hp, hnone,
        Attr.propertiesField_withPropertiesField self (some [p]) hself,
        Attr.withPropertiesField_twice]

/-- Entity receiver for the C7 witness. -/
def c7entity : Entity := Entity.init (PyVal.str "uri:entity:1") (PyVal.str "ENTITY")

/-- Property node added twice in the C7 witness. -/
def c7prop : Attr :=
  Attr.property "uv_index" (PyVal.pyint 10) Option.none Option.none Option.none
    Option.none Option.none

/-- Relationship receiver for the C7 witness. -/
def c7rel : Attr :=
  Attr.relationship "hasObjectOne" (PyVal.str "uri:of:ObjectOne") Option.none
    Option.none Option.none Option.none

theorem C7_add_properties_witness :
    c7entity.properties = Option.none ∧
    Attr.isProperty c7prop = true ∧
    Attr.isPropOrRel c7rel = true ∧
    c7rel.propertiesField = Option.none ∧
    Attr.isBaseProperty c7prop = true ∧
    Entity.add_properties (Entity.add_properties c7entity (.attr c7prop)).1 (.attr c7prop) =
      ({ c7entity with properties := some [c7prop, c7prop] }, false) ∧
    Attr.add_properties (Attr.add_properties c7rel (.attr c7prop)).1 (.attr c7prop) =
      (c7rel.withPropertiesField (some [c7prop, c7prop]), false) :=
  ⟨rfl, rfl, rfl, rfl, rfl,
    ((C7_add_properties c7entity c7rel c7prop).1.2 rfl rfl).2,
    (((C7_add_properties c7entity c7rel c7prop).2 rfl).2 rfl rfl).2⟩

/-- Model of `isinstance(v, dict)`. -/
def PyVal.isDict : PyVal → Bool
  | .dict _ => true
  | _ => false

/-- Model of `GeoProperty.value` setter (proprel.py lines 225-233): store any dict,
raise TypeError for anything else (leaving the stored value unchanged).  The
Bool is true when TypeError is raised. -/
def geo_value_setter (cur : PyVal) (v : PyVal) : PyVal × Bool :=
  match v with
  | PyVal.dict es => (PyVal.dict es, false)
  | _ => (cur, true)

/-- C9 counterexample: the claim says the assignment succeeds only for a
geometry-shaped mapping containing `type` and `coordinates`, but the setter
only checks `isinstance(value, dict)`: the empty mapping, which contains
neither key, is accepted and stored. -/
theorem C9_counterexample :
    geo_value_setter (PyVal.dict [("type", PyVal.str "Point")]) (PyVal.dict []) =
      (PyVal.dict [], false) ∧
    dictLookup [] "type" = Option.none ∧
    dictLookup [] "coordinates" = Option.none :=
  ⟨rfl, rfl, rfl⟩

/-- C9 amended: the assignment succeeds exactly when the value is a mapping
(any dict — the keys are not inspected); any non-mapping value is rejected
with a TypeError and the stored value is left unchanged. -/
theorem C9_geo_value_guard :
    ∀ (cur v : PyVal),
    (v.isDict = true → geo_value_setter cur v = (v, false)) ∧
    (v.isDict = false → geo_value_setter cur v = (cur, true)) := by
  intro cur v
  constructor <;> intro h <;> cases v <;> simp_all [geo_value_setter, PyVal.isDict]

theorem C9_geo_value_guard_witness :
    (PyVal.pyint 7).isDict = false ∧
    geo_value_setter (PyVal.dict [("type", PyVal.str "Point")]) (PyVal.pyint 7) =
      (PyVal.dict [("type", PyVal.str "Point")], true) :=
  ⟨rfl, (C9_geo_value_guard (PyVal.dict [("type", PyVal.str "Point")])
    (PyVal.pyint 7)).2 rfl⟩

/-- C10: for every list argument containing at least one element of the wrong
type, each of the properties/relationships setters and the
`add_properties`/`add_relationships` operations (on Entity and on
Property/Relationship nodes) raises nothing and leaves the receiver exactly
unchanged; whereas a single non-list argument of the wrong type (not `None`)
raises TypeError. -/
theorem C10_silent_list_discard :
    ∀ (e : Entity) (self : Attr) (l : List Dyn) (d : Dyn),
    Attr.isPropOrRel self = true →
    d.isNoneInst = false → d.isListInst = false →
    ((l.all Dyn.isPropertyInst) = false →
      Entity.set_properties e (.list l) = (e, false) ∧
      Entity.add_properties e (.list l) = (e, false)) ∧
    ((l.all Dyn.isRelationshipInst) = false →
      Entity.set_relationships e (.list l) = (e, false) ∧
      Entity.add_relationships e (.list l) = (e, false) ∧
      Attr.set_relationships self (.list l) = (self, false) ∧
      Attr.add_relationships self (.list l) = (self, false)) ∧
    ((l.all Dyn.isBasePropertyInst) = false →
      Attr.set_properties self (.list l) = (self, false) ∧
      Attr.add_properties self (.list l) = (self, false)) ∧
    (d.isPropertyInst = false →
      Entity.set_properties e d = (e, true) ∧
      Entity.add_properties e d = (e, true)) ∧
    (d.isRelationshipInst = false →
      Entity.set_relationships e d = (e, true) ∧
      Entity.add_relationships e d = (e, true) ∧
      Attr.set_relationships self d = (self, true) ∧
      Attr.add_relationships self d = (self, true)) ∧
    (d.isBasePropertyInst = false →
      Attr.set_properties self d = (self, true) ∧
      Attr.add_properties self d = (self, true)) := by
  intro e self l d _hself hdn hdl
  refine ⟨fun hl => ⟨?_, ?_⟩, fun hl => ⟨?_, ?_, ?_, ?_⟩, fun hl => ⟨?_, ?_⟩,
    fun hd => ?_, fun hd => ?_, fun hd => ?_⟩
  · simp [Entity.set_properties, hl]
  · simp [Entity.add_properties, hl]
  · simp [Entity.set_relationships, hl]
  · simp [Entity.add_relationships, hl]
  · simp [Attr.set_relationships, hl]
  · simp [Attr.add_relationships, hl]
  · simp [Attr.set_properties, hl]
  · simp [Attr.add_properties, hl]
  · cases d <;> simp_all [Entity.set_properties, Entity.add_properties,
      Dyn.isPropertyInst, Dyn.isNoneInst, Dyn.isListInst]
  · cases d <;> simp_all [Entity.set_relationships, Entity.add_relationships,
      Attr.set_relationships, Attr.add_relationships,
      Dyn.isRelationshipInst, Dyn.isNoneInst, Dyn.isListInst]
  · cases d <;> simp_all [Attr.set_properties, Attr.add_properties,
      Dyn.isBasePropertyInst, Dyn.isNoneInst, Dyn.isListInst]

/-- Entity receiver for the C10 witness, with one stored property. -/
def c10entity : Entity :=
  { id := PyVal.str "uri:entity:2", type := PyVal.str "ENTITY",
    at_context := PyVal.pynone, properties := some [c7prop],
    relationships := Option.none }

/-- Property receiver for the C10 witness. -/
def c10prop : Attr :=
  Attr.property "plant_health" (PyVal.pyint 5) Option.none Option.none
    Option.none Option.none Option.none

/-- A list with one element of the wrong type, for the C10 witness. -/
def c10badList : List Dyn := [Dyn.attr c7prop, Dyn.other (PyVal.pyint 1)]

theorem C10_silent_list_discard_witness :
    Attr.isPropOrRel c10prop = true ∧
    (Dyn.other (PyVal.str "x")).isNoneInst = false ∧
    (Dyn.other (PyVal.str "x")).isListInst = false ∧
    (c10badList.all Dyn.isPropertyInst) = false ∧
    (c10badList.all Dyn.isBasePropertyInst) = false ∧
    (Dyn.other (PyVal.str "x")).isPropertyInst = false ∧
    Entity.set_properties c10entity (.list c10badList) = (c10entity, false) ∧
    Entity.add_properties c10entity (.list c10badList) = (c10entity, false) ∧
    Attr.add_properties c10prop (.list c10badList) = (c10prop, false) ∧
    Entity.add_properties c10entity (Dyn.other (PyVal.str "x")) = (c10entity, true) := by
  have h := C10_silent_list_discard c10entity c10prop c10badList
    (Dyn.other (PyVal.str "x")) rfl rfl rfl
  exact ⟨rfl, rfl, rfl, rfl, rfl, rfl,
    (h.1 rfl).1, (h.1 rfl).2, (h.2.2.1 rfl).2, (h.2.2.2.1 rfl).2⟩

/-- An HTTP response as far as ctxbroker.py inspects it: the status code and
the JSON body. -/
structure HttpResponse : Type where
  status_code : Nat
  json : List (String × PyVal)

/-- The mutable credential state of a `ContextBroker` instance:
`_access_token` and `_headers`. -/
structure Session : Type where
  access_token : String
  headers : List (String × String)

/-- Failures of `ContextBroker.get_access_token`: the
`Exception('Cannot get Access Token. Status code ...')` raised on a non-200
identity-endpoint response (carrying the observed status), or the `KeyError`
style failure when the body has no usable `access_token` field. -/
inductive TokenError : Type where
  | credentialAcquisition (status : Nat) : TokenError
  | keyError : TokenError

/-- Model of `ContextBroker.get_access_token` (ctxbroker.py lines 56-83),
parameterised by the identity endpoint's response to the client-credentials
POST: a non-200 status raises the acquisition error carrying that status;
otherwise the token is read from the JSON body and the bearer headers are
built. -/
def get_access_token (r : HttpResponse) :
    Except TokenError (String × List (String × String)) :=
  if r.status_code ≠ 200 then .error (.credentialAcquisition r.status_code)
  else
    match dictLookup r.json "access_token" with
    | some (PyVal.str t) =>
        .ok (t, [("Authorization", "Bearer " ++ t),
                 ("Content-Type", "application/ld+json")])
    | _ => .error .keyError

/-- The assignment `self._access_token, self._headers =
self.get_access_token()` performed by `__init__` and by the renewal wrapper:
on success the token and its derived bearer headers replace the session
state. -/
def Session.install (r : HttpResponse) (_s : Session) : Except TokenError Session :=
  match get_access_token r with
  | .ok (t, h) => .ok { access_token := t, headers := h }
  | .error e => .error e

/-- The `renew_access_token` decorator (ctxbroker.py lines 85-98):
run the operation; if the response status is 401, re-acquire credentials
(`ssoResp` is the identity endpoint's answer to that re-acquisition), install
them, and run the operation once more against the refreshed state, returning
its result as-is; any other status is returned unmodified. -/
def renew_wrapper (ssoResp : HttpResponse) (func : Session → HttpResponse)
    (s : Session) : Except TokenError (Session × HttpResponse) :=
  let r := func s
  if r.status_code = 401 then
    match get_access_token ssoResp with
    | .error e => .error e
    | .ok (t, h) =>
        let s2 : Session := { access_token := t, headers := h }
        .ok (s2, func s2)
  else .ok (s, r)

/-- Model of `get_token` of `pyngsild/utils/auth_utils.py` (lines 6-18):
`response.raise_for_status()` raises for any status of 400 and above and the
`json_response["access_token"]` access raises `KeyError` when absent, but the
surrounding `try/except` catches every exception, prints it, and returns
`None`; the function always returns normally. -/
def auth_utils_get_token (r : HttpResponse) : Option String :=
  if 400 ≤ r.status_code then Option.none
  else
    match dictLookup r.json "access_token" with
    | some (PyVal.str t) => some t
    | _ => Option.none

/-- C5: for a gateway operation run through the renewal wrapper, a 401
response triggers exactly one credential re-acquisition followed by exactly
one re-run of the operation against the refreshed session, whose result is
returned as-is (no further retry is possible by construction); and any
non-401 response is returned unmodified with the session untouched. -/
theorem C5_renew_once :
    ∀ (ssoResp : HttpResponse) (func : Session → HttpResponse) (s : Session),
    ((func s).status_code = 401 →
      ∀ t h, get_access_token ssoResp = .ok (t, h) →
        renew_wrapper ssoResp func s =
          .ok ({ access_token := t, headers := h },
               func { access_token := t, headers := h })) ∧
    ((func s).status_code ≠ 401 →
      renew_wrapper ssoResp func s = .ok (s, func s)) := by
  intro ssoResp func s
  constructor
  · intro h401 t h hok
    simp [renew_wrapper, h401, hok]
  · intro hne
    rw [renew_wrapper]
    simp only [if_neg hne]

/-- Identity-endpoint response for the C5 witness. -/
def ssoRespW : HttpResponse := ⟨200, [("access_token", PyVal.str "tok2")]⟩

/-- The headers derived from the C5 witness token. -/
def hdrsW : List (String × String) :=
  [("Authorization", "Bearer tok2"), ("Content-Type", "application/ld+json")]

/-- An operation that fails with 401 under the stale token and again (with a
different body) under the fresh one, for the C5 witness. -/
def funcW : Session → HttpResponse := fun sess =>
  if sess.access_token = "old" then ⟨401, []⟩
  else ⟨401, [("detail", PyVal.str "still unauthorized")]⟩

/-- The stale session for the C5 witness. -/
def sessW : Session := ⟨"old", []⟩

/-- The refreshed session the wrapper must produce in the C5 witness. -/
def sessW2 : Session := ⟨"tok2", hdrsW⟩

theorem C5_renew_once_witness :
    (funcW sessW).status_code = 401 ∧
    get_access_token ssoRespW = .ok ("tok2", hdrsW) ∧
    renew_wrapper ssoRespW funcW sessW = .ok (sessW2, funcW sessW2) ∧
    funcW sessW2 = ⟨401, [("detail", PyVal.str "still unauthorized")]⟩ := by
  refine ⟨rfl, rfl, ?_, rfl⟩
  exact (C5_renew_once ssoRespW funcW sessW).1 rfl "tok2" hdrsW rfl

/-- One broker network call, as assembled by ctxbroker.py: HTTP method, URL
and JSON payload.  A returned `Request` represents the single call the
operation performs; an error means no call was made. -/
structure Request : Type where
  method : String
  url : String
  payload : Option (List (String × PyVal))

/-- The TypeError raised by the broker type guards. -/
inductive PyErr : Type where
  | typeMismatch : PyErr

/-- Model of `ContextBroker.create_entity` (ctxbroker.py lines 144-173): raise
TypeError for a non-Entity argument before any network call; otherwise render
the entity and POST it. -/
def create_entity (cb_host : String) (arg : Dyn) : Except PyErr Request :=
  match arg with
  | .entity e =>
      .ok { method := "POST", url := cb_host ++ "ngsi-ld/v1/entities/",
            payload := some e.to_ngsild }
  | _ => .error .typeMismatch

/-- Model of `ContextBroker.update_entity_attributes` (ctxbroker.py lines 175-215):
raise TypeError unless the fragment is a Property or a Relationship; otherwise
render it, stamp `@context` onto it and PATCH it. -/
def update_entity_attributes (cb_host entity_id : String) (at_context : PyVal)
    (arg : Dyn) : Except PyErr Request :=
  match arg with
  | .attr a =>
      if a.isPropOrRel then
        .ok { method := "PATCH",
              url := cb_host ++ "ngsi-ld/v1/entities/" ++ entity_id ++ "/attrs/",
              payload := some (dictSet a.to_ngsild "@context" at_context) }
      else .error .typeMismatch
  | _ => .error .typeMismatch

/-- Model of `ContextBroker.append_entity_attributes` (ctxbroker.py lines 217-257):
same guard and fragment assembly as the update, POSTed instead of PATCHed. -/
def append_entity_attributes (cb_host entity_id : String) (at_context : PyVal)
    (arg : Dyn) : Except PyErr Request :=
  match arg with
  | .attr a =>
      if a.isPropOrRel then
        .ok { method := "POST",
              url := cb_host ++ "ngsi-ld/v1/entities/" ++ entity_id ++ "/attrs/",
              payload := some (dictSet a.to_ngsild "@context" at_context) }
      else .error .typeMismatch
  | _ => .error .typeMismatch

/-- C6: for every non-Entity value the create operation fails with the
TypeError before any network call, and for every value that is neither a
Property nor a Relationship the update-attributes and append-attributes
operations fail likewise — the error result carries no `Request`, so the
fragment is never rendered or sent. -/
theorem C6_type_guards :
    ∀ (host eid : String) (ctx : PyVal) (d : Dyn),
    (d.isEntityInst = false → create_entity host d = .error .typeMismatch) ∧
    ((d.isPropertyInst || d.isRelationshipInst) = false →
      update_entity_attributes host eid ctx d = .error .typeMismatch ∧
      append_entity_attributes host eid ctx d = .error .typeMismatch) := by
  intro host eid ctx d
  constructor
  · intro h
    cases d <;> simp_all [create_entity, Dyn.isEntityInst]
  · intro h
    cases d <;> simp_all [update_entity_attributes, append_entity_attributes,
      Dyn.isPropertyInst, Dyn.isRelationshipInst, Attr.isPropOrRel]

/-- A GeoProperty node — an Attribute Node that is neither an Entity nor a
Property nor a Relationship — for the C6 witness. -/
def geoW : Attr :=
  Attr.geoProperty "location"
    (PyVal.dict [("type", PyVal.str "Point"),
      ("coordinates", PyVal.pylist [PyVal.pyint 39, PyVal.pyint 16])])
    Option.none Option.none

theorem C6_type_guards_witness :
    (Dyn.attr geoW).isEntityInst = false ∧
    ((Dyn.attr geoW).isPropertyInst || (Dyn.attr geoW).isRelationshipInst) = false ∧
    create_entity "http://broker/" (Dyn.attr geoW) = .error .typeMismatch ∧
    update_entity_attributes "http://broker/" "uri:entity:1" (PyVal.str "ctx")
      (Dyn.attr geoW) = .error .typeMismatch ∧
    append_entity_attributes "http://broker/" "uri:entity:1" (PyVal.str "ctx")
      (Dyn.attr geoW) = .error .typeMismatch := by
  have h := C6_type_guards "http://broker/" "uri:entity:1" (PyVal.str "ctx")
    (Dyn.attr geoW)
  exact ⟨rfl, rfl, h.1 rfl, (h.2 rfl).1, (h.2 rfl).2⟩

/-- C8 counterexample: the claim quantifies over every credential acquisition
attempt, but the standalone helper `get_token` of `utils/auth_utils.py`
swallows the failure instead of propagating it: on a 401 identity-endpoint
response it returns `None` (no error, no status), and on a non-200 response
below 400 (here 204) whose body happens to carry a token it even returns the
token, a success-shaped result. -/
theorem C8_counterexample :
    auth_utils_get_token ⟨401, []⟩ = Option.none ∧
    auth_utils_get_token ⟨204, [("access_token", PyVal.str "tok")]⟩ = some "tok" :=
  ⟨rfl, rfl⟩

/-- C8 amended: for the session's `get_access_token`, a non-200
identity-endpoint response fails with the acquisition error carrying the
observed status, propagated to the caller; on success the returned token is
installed in the session's bearer-authorization headers.  The standalone
`auth_utils.get_token` helper instead catches its failures (any status of 400
and above) and returns `None`. -/
theorem C8_credential_acquisition :
    ∀ (r : HttpResponse),
    (r.status_code ≠ 200 →
      get_access_token r = .error (.credentialAcquisition r.status_code)) ∧
    (∀ t s, r.status_code = 200 →
      dictLookup r.json "access_token" = some (PyVal.str t) →
      get_access_token r =
        .ok (t, [("Authorization", "Bearer " ++ t),
                 ("Content-Type", "application/ld+json")]) ∧
      Session.install r s =
        .ok { access_token := t,
              headers := [("Authorization", "Bearer " ++ t),
                          ("Content-Type", "application/ld+json")] }) ∧
    (400 ≤ r.status_code → auth_utils_get_token r = Option.none) := by
  intro r
  refine ⟨fun h => ?_, fun t s h200 htok => ?_, fun h400 => ?_⟩
  · rw [get_access_token, if_pos h]
  · have hok : get_access_token r =
        .ok (t, [("Authorization", "Bearer " ++ t),
                 ("Content-Type", "application/ld+json")]) := by
      rw [get_access_token, if_neg (by simp [h200]), htok]
    exact ⟨hok, by rw [Session.install, hok]⟩
  · rw [auth_utils_get_token, if_pos h400]

theorem C8_credential_acquisition_witness :
    (500 : Nat) ≠ 200 ∧
    get_access_token ⟨500, []⟩ = .error (.credentialAcquisition 500) ∧
    (400 : Nat) ≤ 500 ∧
    auth_utils_get_token ⟨500, []⟩ = Option.none ∧
    dictLookup [("access_token", PyVal.str "tok")] "access_token" =
      some (PyVal.str "tok") ∧
    Session.install ⟨200, [("access_token", PyVal.str "tok")]⟩ ⟨"stale", []⟩ =
      .ok { access_token := "tok",
            headers := [("Authorization", "Bearer tok"),
                        ("Content-Type", "application/ld+json")] } := by
  refine ⟨by decide, (C8_credential_acquisition ⟨500, []⟩).1 (by decide),
    by decide, (C8_credential_acquisition ⟨500, []⟩).2.2 (by decide), rfl, ?_⟩
  have h := ((C8_credential_acquisition ⟨200, [("access_token", PyVal.str "tok")]⟩).2.1
    "tok" ⟨"stale", []⟩ rfl rfl).2
  rw [h]
  rfl

end Pyngsild
